import Mathlib

/-!
Shallow embedding of the repository module firefish/meshsnappy.py.

The module defines a single class SnappyHexMesh holding meshing parameters,
a method write_snappy_dict rendering them into a nested dictionary and
persisting it through the case writer, and a method generate_mesh running a
four-step orchestration. Rendered dictionaries are modelled as a tree of
values; Python numbers are modelled as rationals, Python tuples as pairs.
The external collaborators (firefish.case.Case and firefish.geometry.Geometry)
are not part of the sources; following the specification they are modelled as
opaque fallible operations.
-/

namespace Firefish

/-- A Python exception, as far as this module can observe one: the
IndexError raised by out-of-range list indexing during rendering, or an
arbitrary error raised by an external collaborator. -/
inductive PyErr : Type where
  | indexError : PyErr
  | external : Nat → PyErr
deriving DecidableEq

/-- A value of the rendered dictionary tree: Python booleans, numbers
(modelled as rationals), strings, lists, two-element tuples and
insertion-ordered string-keyed dictionaries. -/
inductive Val : Type where
  | vbool : Bool → Val
  | vnum : Rat → Val
  | vstr : String → Val
  | vlist : List Val → Val
  | vpair : Val → Val → Val
  | vdict : List (String × Val) → Val

/-- Lookup of a key in an association list of dictionary entries, first
binding wins, as in a Python dict built without duplicate keys. -/
def lookupKV : List (String × Val) → String → Option Val
  | [], _ => none
  | (k0, v) :: rest, k => if k0 = k then some v else lookupKV rest k

/-- Lookup of a key in a dictionary value; none on non-dictionaries. -/
def Val.lookup : Val → String → Option Val
  | Val.vdict kvs, k => lookupKV kvs k
  | _, _ => none

/-- Lookup along a path of nested dictionary keys. -/
def Val.lookupPath : Val → List String → Option Val
  | v, [] => some v
  | v, k :: ks =>
    match Val.lookup v k with
    | none => none
    | some w => Val.lookupPath w ks

/-- Modelled from the spec: the geometry collaborator
(firefish.geometry.Geometry, not under the sources). The parameter set reads
only its filename and name; generate_mesh additionally invokes its
feature-extraction side effect and the write_settings operation of its
quality-settings object, both external operations that may fail, modelled
here by their outcome. -/
structure Geometry : Type where
  filename : String
  name : String
  extract_features : Except PyErr Unit
  write_settings : Except PyErr Unit

/-- Modelled from the spec: the case collaborator (firefish.case.Case, not
under the sources). It offers scoped mutable access to the configuration
file, modelled as a write of the rendered dictionary with a fallible
outcome, and a run_tool operation invoking an external binary by name. -/
structure Case : Type where
  write : Val → Except PyErr Unit
  run_tool : String → Except PyErr Unit

/-- The SnappyHexMesh settings object: the geometry, surface refinement and
case references given at construction, plus every default field assigned in
the constructor, in source order. -/
structure SnappyHexMesh : Type where
  geom : Geometry
  surfaceRefinement : Rat
  case_ : Case
  castellate : Bool
  snap : Bool
  addLayers : Bool
  maxLocalCells : Rat
  maxGlobalCells : Rat
  minRefinementCells : Rat
  maxLoadUnbalance : Rat
  nCellsBetweenLevels : Rat
  edgeRefinementLevel : Rat
  refinementSurfaceMin : Rat
  refinementSurfaceMax : Rat
  resolveFeatureAngle : Rat
  distanceRefinements : List Rat
  distanceLevels : List Rat
  locationToKeep : List Rat
  allowFreeStandingFaces : Bool
  nSmoothPatch : Rat
  snapTolerance : Rat
  nSolveIter : Rat
  nRelaxIter : Rat
  nFeatureSnapIter : Rat
  implicitFeatureSnap : Bool
  explicitFeatureSnap : Bool
  multiRegionFeatureSnap : Bool
  relativeSizes : Bool
  nSurfaceLayers : Rat
  expansionRatio : Rat
  finalLayerThickness : Rat
  minThickness : Rat
  nGrow : Rat
  featureAngle : Rat
  slipFeatureAngle : Rat
  nSmoothSurfaceNormals : Rat
  nSmoothNormals : Rat
  nSmoothThickness : Rat
  maxFaceThicknessratio : Rat
  maxThicknessToMedialRatio : Rat
  minMedianAxisAngle : Rat
  nBufferCellsNoExtrude : Rat
  nLayerIter : Rat
  mergeTolerance : Rat

/-- The constructor of SnappyHexMesh: stores the three references and
assigns every default in source order. The source assigns nRelaxIter twice,
first 5 then 3; the record below holds the first assignment and the update
after it mirrors the second one. -/
def SnappyHexMesh.init (geom : Geometry) (surfaceRefinement : Rat)
    (case_ : Case) : SnappyHexMesh :=
  let s : SnappyHexMesh :=
    { geom := geom
      surfaceRefinement := surfaceRefinement
      case_ := case_
      castellate := true
      snap := true
      addLayers := true
      maxLocalCells := 1000000
      maxGlobalCells := 200000
      minRefinementCells := 200
      maxLoadUnbalance := 0.1
      nCellsBetweenLevels := 3
      edgeRefinementLevel := 6
      refinementSurfaceMin := 5
      refinementSurfaceMax := 6
      resolveFeatureAngle := 30
      distanceRefinements := [0.1, 0.2]
      distanceLevels := [4, 3]
      locationToKeep := [0.001, 0.001, 0.0015]
      allowFreeStandingFaces := true
      nSmoothPatch := 3
      snapTolerance := 2
      nSolveIter := 30
      nRelaxIter := 5
      nFeatureSnapIter := 10
      implicitFeatureSnap := false
      explicitFeatureSnap := true
      multiRegionFeatureSnap := false
      relativeSizes := true
      nSurfaceLayers := 1
      expansionRatio := 1
      finalLayerThickness := 0.1
      minThickness := 0.1
      nGrow := 0
      featureAngle := 60
      slipFeatureAngle := 30
      nSmoothSurfaceNormals := 1
      nSmoothNormals := 1
      nSmoothThickness := 10
      maxFaceThicknessratio := 0.5
      maxThicknessToMedialRatio := 0.3
      minMedianAxisAngle := 90
      nBufferCellsNoExtrude := 0
      nLayerIter := 50
      mergeTolerance := 1e-6 }
  { s with nRelaxIter := 3 }

/-- The levels entry of refinementRegions: the comprehension
[[(distanceRefinements[x], distanceLevels[x])] for x in
range(len(distanceRefinements))], where indexing out of range raises, here
modelled by the Option monad. -/
def refinementLevels (dr : List Rat) (dl : List Rat) : Option (List Val) :=
  (List.range dr.length).mapM fun x => do
    let r ← dr[x]?
    let l ← dl[x]?
    pure (Val.vlist [Val.vpair (Val.vnum r) (Val.vnum l)])

/-- The nested mapping literal of write_snappy_dict, with the levels list of
refinementRegions passed in after its comprehension has been evaluated. -/
def renderedDict (s : SnappyHexMesh) (levels : List Val) : Val :=
  Val.vdict [
    ("castellatedMesh", Val.vbool s.castellate),
    ("snap", Val.vbool s.snap),
    ("addLayers", Val.vbool s.addLayers),
    ("geometry", Val.vdict [
      (s.geom.filename, Val.vdict [("type", Val.vstr "triSurfaceMesh")])]),
    ("castellatedMeshControls", Val.vdict [
      ("maxLocalCells", Val.vnum s.maxLocalCells),
      ("maxGlobalCells", Val.vnum s.maxGlobalCells),
      ("minRefinementCells", Val.vnum s.minRefinementCells),
      ("maxLoadUnbalance", Val.vnum s.maxLoadUnbalance),
      ("nCellsBetweenLevels", Val.vnum s.nCellsBetweenLevels),
      ("features", Val.vlist [Val.vdict [
        ("file", Val.vstr ("\"" ++ s.geom.name ++ ".eMesh\"")),
        ("level", Val.vnum s.surfaceRefinement)]]),
      ("refinementSurfaces", Val.vdict [
        (s.geom.filename, Val.vdict [
          ("level", Val.vlist [Val.vnum s.refinementSurfaceMin,
            Val.vnum s.refinementSurfaceMax])])]),
      ("resolveFeatureAngle", Val.vnum s.resolveFeatureAngle),
      ("refinementRegions", Val.vdict [
        (s.geom.filename, Val.vdict [
          ("mode", Val.vstr "distance"),
          ("levels", Val.vlist levels)])]),
      ("locationInMesh", Val.vlist (s.locationToKeep.map Val.vnum)),
      ("allowFreeStandingZoneFaces", Val.vbool s.allowFreeStandingFaces)]),
    ("snapControls", Val.vdict [
      ("nSmoothPatch", Val.vnum s.nSmoothPatch),
      ("tolerance", Val.vnum s.snapTolerance),
      ("nRelaxIter", Val.vnum s.nRelaxIter),
      ("nSolveIter", Val.vnum s.nSolveIter),
      ("nFeatureSnapIter", Val.vnum s.nFeatureSnapIter),
      ("implicitFeatureSnap", Val.vbool s.implicitFeatureSnap),
      ("explicitFeatureSnap", Val.vbool s.explicitFeatureSnap),
      ("multiRegionFeatureSnap", Val.vbool s.multiRegionFeatureSnap)]),
    ("addLayersControls", Val.vdict [
      ("relativeSizes", Val.vbool s.relativeSizes),
      ("layers", Val.vdict [
        (s.geom.filename, Val.vdict [
          ("nSurfaceLayers", Val.vnum s.nSurfaceLayers)])]),
      ("expansionRatio", Val.vnum s.expansionRatio),
      ("finalLayerThickness", Val.vnum s.finalLayerThickness),
      ("minThickness", Val.vnum s.minThickness),
      ("nGrow", Val.vnum s.nGrow),
      ("featureAngle", Val.vnum s.featureAngle),
      ("slipFeatureAngle", Val.vnum s.slipFeatureAngle),
      ("nRelaxIter", Val.vnum s.nRelaxIter),
      ("nSmoothSurfaceNormals", Val.vnum s.nSmoothSurfaceNormals),
      ("nSmoothNormals", Val.vnum s.nSmoothNormals),
      ("nSmoothThickness", Val.vnum s.nSmoothThickness),
      ("maxFaceThicknessRatio", Val.vnum s.maxFaceThicknessratio),
      ("maxThicknessToMedialRatio", Val.vnum s.maxThicknessToMedialRatio),
      ("minMedianAxisAngle", Val.vnum s.minMedianAxisAngle),
      ("nBufferCellsNoExtrude", Val.vnum s.nBufferCellsNoExtrude),
      ("nLayerIter", Val.vnum s.nLayerIter)]),
    ("meshQualityControls", Val.vdict [
      ("#include", Val.vstr "\"meshQualityDict\"")]),
    ("mergeTolerance", Val.vnum s.mergeTolerance)]

/-- Building the snappy_dict mapping in write_snappy_dict: the one fallible
part is the levels comprehension; every other entry is a direct read of a
field. -/
def SnappyHexMesh.build_snappy_dict (s : SnappyHexMesh) : Option Val :=
  Option.map (renderedDict s)
    (refinementLevels s.distanceRefinements s.distanceLevels)

/-- The write_snappy_dict method: builds the mapping, an out-of-range index
raising IndexError, then persists it via the scoped case writer. -/
def SnappyHexMesh.write_snappy_dict (s : SnappyHexMesh) : Except PyErr Unit :=
  match s.build_snappy_dict with
  | none => Except.error PyErr.indexError
  | some d => s.case_.write d

/-- One orchestration step of generate_mesh, for traces. -/
inductive MeshStep : Type where
  | extractFeatures : MeshStep
  | writeSettings : MeshStep
  | writeSnappyDict : MeshStep
  | runTool : String → MeshStep
deriving DecidableEq

/-- The four steps of generate_mesh in source order. -/
def meshSteps : List MeshStep :=
  [MeshStep.extractFeatures, MeshStep.writeSettings,
   MeshStep.writeSnappyDict, MeshStep.runTool "snappyHexMesh"]

/-- The generate_mesh method: a straight-line four-step sequence with no
handler, so the first failure stops execution and propagates. The result
records the steps that were started, in order, and the propagated error if
any. -/
def SnappyHexMesh.generate_mesh (s : SnappyHexMesh) :
    List MeshStep × Option PyErr :=
  match s.geom.extract_features with
  | Except.error e => ([MeshStep.extractFeatures], some e)
  | Except.ok _ =>
    match s.geom.write_settings with
    | Except.error e =>
      ([MeshStep.extractFeatures, MeshStep.writeSettings], some e)
    | Except.ok _ =>
      match s.write_snappy_dict with
      | Except.error e =>
        ([MeshStep.extractFeatures, MeshStep.writeSettings,
          MeshStep.writeSnappyDict], some e)
      | Except.ok _ =>
        match s.case_.run_tool "snappyHexMesh" with
        | Except.error e => (meshSteps, some e)
        | Except.ok _ => (meshSteps, none)

/-- Composing a pure map into a fallible map over the Option monad. -/
theorem mapM_map_option {α β γ : Type} (g : α → β) (f : β → Option γ) :
    ∀ l : List α, (l.map g).mapM f = l.mapM fun a => f (g a) := by
  intro l
  induction l with
  | nil => rfl
  | cons a l ih => rw [List.map_cons, List.mapM_cons, List.mapM_cons, ih]

/-- Mapping a fallible two-list indexing over the range of the first list:
it succeeds exactly when the second list is at least as long, and then
returns the zip of the two lists, truncated at the length of the first. -/
theorem mapM_range_pair {α β γ : Type} (g : α → β → γ) :
    ∀ (l1 : List α) (l2 : List β),
      ((List.range l1.length).mapM fun x => do
          let a ← l1[x]?
          let b ← l2[x]?
          pure (g a b) : Option (List γ)) =
        if l1.length ≤ l2.length then some (List.zipWith g l1 l2) else none := by
  intro l1
  induction l1 with
  | nil =>
    intro l2
    simp only [List.length_nil, List.range_zero, List.mapM_nil, Nat.zero_le,
      if_true, List.zipWith_nil_left]
    rfl
  | cons a l1 ih =>
    intro l2
    rw [List.length_cons, List.range_succ_eq_map, List.mapM_cons, mapM_map_option]
    cases l2 with
    | nil =>
      simp
    | cons b l2 =>
      simp only [List.getElem?_cons_succ, List.getElem?_cons_zero]
      rw [ih l2]
      by_cases h : l1.length ≤ l2.length
      · simp [h]
      · simp [h]

/-- The index-wise pairing of the two distance sequences, each pair wrapped
in a singleton list, truncated at the length of the first sequence. -/
def distancePairs (dr dl : List Rat) : List Val :=
  List.zipWith (fun r l => Val.vlist [Val.vpair (Val.vnum r) (Val.vnum l)]) dr dl

/-- Characterization of refinementLevels via mapM_range_pair. -/
theorem refinementLevels_eq (dr dl : List Rat) :
    refinementLevels dr dl =
      if dr.length ≤ dl.length then some (distancePairs dr dl) else none :=
  mapM_range_pair _ dr dl

/-- Inversion of build_snappy_dict: it yields a dictionary exactly when the
refinement sequences are compatible, and then the dictionary is the
rendered mapping with the zipped levels. -/
theorem build_snappy_dict_eq (s : SnappyHexMesh) :
    s.build_snappy_dict =
      if s.distanceRefinements.length ≤ s.distanceLevels.length then
        some (renderedDict s
          (distancePairs s.distanceRefinements s.distanceLevels))
      else none := by
  rw [SnappyHexMesh.build_snappy_dict, refinementLevels_eq]
  by_cases h : s.distanceRefinements.length ≤ s.distanceLevels.length
  · simp [h]
  · simp [h]

/-- Whenever build_snappy_dict yields a dictionary, that dictionary is the
rendered mapping with the zipped levels. -/
theorem build_snappy_dict_some {s : SnappyHexMesh} {d : Val}
    (h : s.build_snappy_dict = some d) :
    d = renderedDict s (distancePairs s.distanceRefinements s.distanceLevels) := by
  rw [build_snappy_dict_eq] at h
  by_cases hc : s.distanceRefinements.length ≤ s.distanceLevels.length
  · rw [if_pos hc] at h
    exact (Option.some.inj h).symm
  · rw [if_neg hc] at h
    exact Option.noConfusion h

/-- A sample geometry, as in the tests: the unit sphere. -/
def sphereGeom : Geometry :=
  { filename := "sphere.stl", name := "sphere",
    extract_features := Except.ok (), write_settings := Except.ok () }

/-- A sample case whose collaborators all succeed. -/
def okCase : Case :=
  { write := fun _ => Except.ok (), run_tool := fun _ => Except.ok () }

/-- The settings object built by the constructor for the sphere geometry
with surface refinement 4, all other fields at their defaults. -/
def defaultSHM : SnappyHexMesh := SnappyHexMesh.init sphereGeom 4 okCase

/-- The dictionary rendered from the default settings. -/
def defaultRendered : Val :=
  renderedDict defaultSHM (distancePairs [0.1, 0.2] [4, 3])

/-- The default settings render to the default dictionary. -/
theorem defaultSHM_build :
    defaultSHM.build_snappy_dict = some defaultRendered := by
  rw [build_snappy_dict_eq]
  rfl

/-- C1: for every parameter set whose distanceRefinements and
distanceLevels have equal lengths, the rendered
castellatedMeshControls.refinementRegions maps the geometry filename to
mode distance and the levels list pairing the i-th entries of the two
sequences, each pair wrapped in a singleton list, in index order. -/
theorem claimC1_refinement_regions_pairing (s : SnappyHexMesh)
    (hlen : s.distanceRefinements.length = s.distanceLevels.length) :
    ∃ d, s.build_snappy_dict = some d ∧
      Val.lookupPath d
        ["castellatedMeshControls", "refinementRegions", s.geom.filename] =
        some (Val.vdict [
          ("mode", Val.vstr "distance"),
          ("levels", Val.vlist
            (distancePairs s.distanceRefinements s.distanceLevels))]) := by
  rw [build_snappy_dict_eq, if_pos (le_of_eq hlen)]
  refine ⟨_, rfl, ?_⟩
  simp [renderedDict, Val.lookupPath, Val.lookup, lookupKV]

/-- Witness for C1: at the default settings, distanceRefinements=[0.1,0.2]
and distanceLevels=[4,3] give the levels list [[(0.1,4)],[(0.2,3)]]. -/
theorem claimC1_refinement_regions_pairing_witness :
    defaultSHM.distanceRefinements.length =
      defaultSHM.distanceLevels.length ∧
    defaultSHM.build_snappy_dict = some defaultRendered ∧
    Val.lookupPath defaultRendered
      ["castellatedMeshControls", "refinementRegions", "sphere.stl"] =
      some (Val.vdict [
        ("mode", Val.vstr "distance"),
        ("levels", Val.vlist [
          Val.vlist [Val.vpair (Val.vnum 0.1) (Val.vnum 4)],
          Val.vlist [Val.vpair (Val.vnum 0.2) (Val.vnum 3)]])]) := by
  have h := claimC1_refinement_regions_pairing defaultSHM rfl
  refine ⟨rfl, defaultSHM_build, ?_⟩
  rcases h with ⟨d, hd, hp⟩
  rw [defaultSHM_build] at hd
  rw [← Option.some.inj hd] at hp
  simpa [defaultSHM, SnappyHexMesh.init, sphereGeom, distancePairs] using hp

/-- C3: construction assigns nRelaxIter twice, 5 then 3, so the field ends
at 3 and the rendered addLayersControls.nRelaxIter of a default parameter
set is 3, not 5. -/
theorem claimC3_nRelaxIter_override (g : Geometry) (r : Rat) (c : Case) :
    (SnappyHexMesh.init g r c).nRelaxIter = 3 ∧
    ∃ d, (SnappyHexMesh.init g r c).build_snappy_dict = some d ∧
      Val.lookupPath d ["addLayersControls", "nRelaxIter"] =
        some (Val.vnum 3) := by
  refine ⟨rfl, ?_⟩
  rw [build_snappy_dict_eq, if_pos (by rfl)]
  refine ⟨_, rfl, ?_⟩
  simp [SnappyHexMesh.init, renderedDict, Val.lookupPath, Val.lookup, lookupKV]

/-- C4: the constructor stores the three references and initializes every
other field to the documented default; it is a total pure function, so it
validates nothing, raises nothing and has no side effects. -/
theorem claimC4_constructor_defaults (g : Geometry) (r : Rat) (c : Case) :
    (SnappyHexMesh.init g r c).geom = g ∧
    (SnappyHexMesh.init g r c).surfaceRefinement = r ∧
    (SnappyHexMesh.init g r c).case_ = c ∧
    (SnappyHexMesh.init g r c).castellate = true ∧
    (SnappyHexMesh.init g r c).snap = true ∧
    (SnappyHexMesh.init g r c).addLayers = true ∧
    (SnappyHexMesh.init g r c).maxLocalCells = 1000000 ∧
    (SnappyHexMesh.init g r c).maxGlobalCells = 200000 ∧
    (SnappyHexMesh.init g r c).minRefinementCells = 200 ∧
    (SnappyHexMesh.init g r c).maxLoadUnbalance = 0.1 ∧
    (SnappyHexMesh.init g r c).nCellsBetweenLevels = 3 ∧
    (SnappyHexMesh.init g r c).edgeRefinementLevel = 6 ∧
    (SnappyHexMesh.init g r c).refinementSurfaceMin = 5 ∧
    (SnappyHexMesh.init g r c).refinementSurfaceMax = 6 ∧
    (SnappyHexMesh.init g r c).resolveFeatureAngle = 30 ∧
    (SnappyHexMesh.init g r c).distanceRefinements = [0.1, 0.2] ∧
    (SnappyHexMesh.init g r c).distanceLevels = [4, 3] ∧
    (SnappyHexMesh.init g r c).locationToKeep = [0.001, 0.001, 0.0015] ∧
    (SnappyHexMesh.init g r c).allowFreeStandingFaces = true ∧
    (SnappyHexMesh.init g r c).nSmoothPatch = 3 ∧
    (SnappyHexMesh.init g r c).snapTolerance = 2 ∧
    (SnappyHexMesh.init g r c).nSolveIter = 30 ∧
    (SnappyHexMesh.init g r c).nRelaxIter = 3 ∧
    (SnappyHexMesh.init g r c).nFeatureSnapIter = 10 ∧
    (SnappyHexMesh.init g r c).implicitFeatureSnap = false ∧
    (SnappyHexMesh.init g r c).explicitFeatureSnap = true ∧
    (SnappyHexMesh.init g r c).multiRegionFeatureSnap = false ∧
    (SnappyHexMesh.init g r c).relativeSizes = true ∧
    (SnappyHexMesh.init g r c).nSurfaceLayers = 1 ∧
    (SnappyHexMesh.init g r c).expansionRatio = 1 ∧
    (SnappyHexMesh.init g r c).finalLayerThickness = 0.1 ∧
    (SnappyHexMesh.init g r c).minThickness = 0.1 ∧
    (SnappyHexMesh.init g r c).nGrow = 0 ∧
    (SnappyHexMesh.init g r c).featureAngle = 60 ∧
    (SnappyHexMesh.init g r c).slipFeatureAngle = 30 ∧
    (SnappyHexMesh.init g r c).nSmoothSurfaceNormals = 1 ∧
    (SnappyHexMesh.init g r c).nSmoothNormals = 1 ∧
    (SnappyHexMesh.init g r c).nSmoothThickness = 10 ∧
    (SnappyHexMesh.init g r c).maxFaceThicknessratio = 0.5 ∧
    (SnappyHexMesh.init g r c).maxThicknessToMedialRatio = 0.3 ∧
    (SnappyHexMesh.init g r c).minMedianAxisAngle = 90 ∧
    (SnappyHexMesh.init g r c).nBufferCellsNoExtrude = 0 ∧
    (SnappyHexMesh.init g r c).nLayerIter = 50 ∧
    (SnappyHexMesh.init g r c).mergeTolerance = 1e-6 := by
  simp [SnappyHexMesh.init]

/-- C5: the geometry section maps exactly the geometry filename to the
triSurfaceMesh type mapping, and the single features entry names the file
<geometry-name>.eMesh, in quotes, at the surface refinement level given at
construction. -/
theorem claimC5_geometry_and_features (s : SnappyHexMesh) (d : Val)
    (h : s.build_snappy_dict = some d) :
    Val.lookup d "geometry" =
      some (Val.vdict [(s.geom.filename,
        Val.vdict [("type", Val.vstr "triSurfaceMesh")])]) ∧
    Val.lookupPath d ["castellatedMeshControls", "features"] =
      some (Val.vlist [Val.vdict [
        ("file", Val.vstr ("\"" ++ s.geom.name ++ ".eMesh\"")),
        ("level", Val.vnum s.surfaceRefinement)]]) := by
  rw [build_snappy_dict_some h]
  constructor
  · simp [renderedDict, Val.lookup, lookupKV]
  · simp [renderedDict, Val.lookupPath, Val.lookup, lookupKV]

/-- Witness for C5: for the sphere geometry the geometry section key is
sphere.stl and the features file value is the quoted string sphere.eMesh. -/
theorem claimC5_geometry_and_features_witness :
    Val.lookup defaultRendered "geometry" =
      some (Val.vdict [("sphere.stl",
        Val.vdict [("type", Val.vstr "triSurfaceMesh")])]) ∧
    Val.lookupPath defaultRendered ["castellatedMeshControls", "features"] =
      some (Val.vlist [Val.vdict [
        ("file", Val.vstr "\"sphere.eMesh\""),
        ("level", Val.vnum 4)]]) := by
  have h := claimC5_geometry_and_features defaultSHM defaultRendered
    defaultSHM_build
  simpa [defaultSHM, SnappyHexMesh.init, sphereGeom] using h

/-- C6: rendering cannot fail when the two distance sequences have equal
lengths. -/
theorem claimC6_render_total (s : SnappyHexMesh)
    (h : s.distanceRefinements.length = s.distanceLevels.length) :
    (s.build_snappy_dict).isSome = true := by
  rw [build_snappy_dict_eq, if_pos (le_of_eq h)]
  rfl

/-- Witness for C6 at the default settings. -/
theorem claimC6_render_total_witness :
    defaultSHM.distanceRefinements.length =
      defaultSHM.distanceLevels.length ∧
    (defaultSHM.build_snappy_dict).isSome = true :=
  ⟨rfl, claimC6_render_total defaultSHM rfl⟩

/-- C7: rendering is a pure function of the field values and of the
filename and name of the geometry, hence deterministic: replacing the case
reference and the external operations of the geometry, the only parts of
the state rendering does not read, leaves the rendered mapping unchanged. -/
theorem claimC7_render_pure (s : SnappyHexMesh) (c : Case)
    (ef ws : Except PyErr Unit) :
    SnappyHexMesh.build_snappy_dict
      { s with
        case_ := c
        geom := { filename := s.geom.filename, name := s.geom.name,
                  extract_features := ef, write_settings := ws } } =
      s.build_snappy_dict := rfl

/-- C8: setting nSurfaceLayers to v after construction is reflected
verbatim as addLayersControls.layers[filename].nSurfaceLayers = v in the
rendered mapping. -/
theorem claimC8_mutation_reflected (s : SnappyHexMesh) (v : Rat) (d : Val)
    (h : SnappyHexMesh.build_snappy_dict { s with nSurfaceLayers := v } =
      some d) :
    Val.lookupPath d
      ["addLayersControls", "layers", s.geom.filename, "nSurfaceLayers"] =
      some (Val.vnum v) := by
  rw [build_snappy_dict_some h]
  simp [renderedDict, Val.lookupPath, Val.lookup, lookupKV]

/-- The default settings with nSurfaceLayers overwritten to 3. -/
def mutatedSHM : SnappyHexMesh := { defaultSHM with nSurfaceLayers := 3 }

/-- The dictionary rendered from the mutated settings. -/
def mutatedRendered : Val :=
  renderedDict mutatedSHM (distancePairs [0.1, 0.2] [4, 3])

/-- Witness for C8: setting nSurfaceLayers to 3 on the default settings
yields 3 under addLayersControls.layers[sphere.stl].nSurfaceLayers. -/
theorem claimC8_mutation_reflected_witness :
    Val.lookupPath mutatedRendered
      ["addLayersControls", "layers", "sphere.stl", "nSurfaceLayers"] =
      some (Val.vnum 3) := by
  have h := claimC8_mutation_reflected defaultSHM 3 mutatedRendered
    (by rw [build_snappy_dict_eq]; rfl)
  simpa [defaultSHM, SnappyHexMesh.init, sphereGeom] using h

/-- C9: both snapControls.nRelaxIter and addLayersControls.nRelaxIter of a
rendered dictionary are read from the single shared nRelaxIter field, so
they are always equal and cannot be configured independently. -/
theorem claimC9_shared_nRelaxIter (s : SnappyHexMesh) (d : Val)
    (h : s.build_snappy_dict = some d) :
    Val.lookupPath d ["snapControls", "nRelaxIter"] =
      Val.lookupPath d ["addLayersControls", "nRelaxIter"] ∧
    Val.lookupPath d ["snapControls", "nRelaxIter"] =
      some (Val.vnum s.nRelaxIter) := by
  rw [build_snappy_dict_some h]
  constructor
  · simp [renderedDict, Val.lookupPath, Val.lookup, lookupKV]
  · simp [renderedDict, Val.lookupPath, Val.lookup, lookupKV]

/-- Witness for C9 at the default settings. -/
theorem claimC9_shared_nRelaxIter_witness :
    Val.lookupPath defaultRendered ["snapControls", "nRelaxIter"] =
      Val.lookupPath defaultRendered ["addLayersControls", "nRelaxIter"] ∧
    Val.lookupPath defaultRendered ["snapControls", "nRelaxIter"] =
      some (Val.vnum 3) := by
  have h := claimC9_shared_nRelaxIter defaultSHM defaultRendered
    defaultSHM_build
  simpa [defaultSHM, SnappyHexMesh.init] using h

/-- C10: the length-mismatch behaviour of rendering is asymmetric. When
distanceRefinements is strictly longer than distanceLevels, rendering
fails with the out-of-range index error; when it is shorter or of equal
length, rendering succeeds, any extra entries of distanceLevels are
ignored, and the levels list has exactly as many entries as
distanceRefinements. -/
theorem claimC10_length_mismatch (s : SnappyHexMesh) :
    (s.distanceLevels.length < s.distanceRefinements.length →
      s.build_snappy_dict = none ∧
      s.write_snappy_dict = Except.error PyErr.indexError) ∧
    (s.distanceRefinements.length ≤ s.distanceLevels.length →
      ∃ d, s.build_snappy_dict = some d ∧
        Val.lookupPath d
          ["castellatedMeshControls", "refinementRegions",
           s.geom.filename, "levels"] =
          some (Val.vlist
            (distancePairs s.distanceRefinements s.distanceLevels)) ∧
        (distancePairs s.distanceRefinements s.distanceLevels).length =
          s.distanceRefinements.length) := by
  constructor
  · intro hlt
    have hb : s.build_snappy_dict = none := by
      rw [build_snappy_dict_eq, if_neg (not_le.mpr hlt)]
    refine ⟨hb, ?_⟩
    rw [SnappyHexMesh.write_snappy_dict, hb]
  · intro hle
    rw [build_snappy_dict_eq, if_pos hle]
    refine ⟨_, rfl, ?_, ?_⟩
    · simp [renderedDict, Val.lookupPath, Val.lookup, lookupKV]
    · simp [distancePairs, Nat.min_eq_left hle]

/-- The default settings with a third distance refinement appended but only
two distance levels: rendering raises IndexError. -/
def badSHM : SnappyHexMesh :=
  { defaultSHM with distanceRefinements := [0.1, 0.2, 0.3] }

/-- The default settings with a single distance refinement and two distance
levels: rendering succeeds and ignores the extra level. -/
def shortSHM : SnappyHexMesh :=
  { defaultSHM with distanceRefinements := [0.1] }

/-- Witness for C10: three refinements against two levels fail with
IndexError; one refinement against two levels succeeds with a one-entry
levels list. -/
theorem claimC10_length_mismatch_witness :
    (badSHM.build_snappy_dict = none ∧
     badSHM.write_snappy_dict = Except.error PyErr.indexError) ∧
    (∃ d, shortSHM.build_snappy_dict = some d ∧
      Val.lookupPath d
        ["castellatedMeshControls", "refinementRegions",
         "sphere.stl", "levels"] =
        some (Val.vlist [Val.vlist [Val.vpair (Val.vnum 0.1) (Val.vnum 4)]]) ∧
      [Val.vlist [Val.vpair (Val.vnum 0.1) (Val.vnum 4)]].length = 1) := by
  constructor
  · exact (claimC10_length_mismatch badSHM).1 (by decide)
  · have h := (claimC10_length_mismatch shortSHM).2 (by decide)
    simpa [shortSHM, defaultSHM, SnappyHexMesh.init, sphereGeom,
      distancePairs] using h

/-- C2: generate_mesh is a straight-line four-step sequence, extract
features, write quality settings, write the snappy dictionary, run the
tool, with no branching, retry or handler: when every step succeeds all
four run in order, and when a step fails its error propagates unchanged,
later steps never start, and nothing else is executed, the trace always
being a non-empty leading segment of the four steps. -/
theorem claimC2_orchestration (s : SnappyHexMesh) :
    (s.geom.extract_features = Except.ok () →
      s.geom.write_settings = Except.ok () →
      s.write_snappy_dict = Except.ok () →
      s.case_.run_tool "snappyHexMesh" = Except.ok () →
      s.generate_mesh = (meshSteps, none)) ∧
    (∀ e, s.geom.extract_features = Except.error e →
      s.generate_mesh = ([MeshStep.extractFeatures], some e)) ∧
    (∀ e, s.geom.extract_features = Except.ok () →
      s.geom.write_settings = Except.error e →
      s.generate_mesh =
        ([MeshStep.extractFeatures, MeshStep.writeSettings], some e)) ∧
    (∀ e, s.geom.extract_features = Except.ok () →
      s.geom.write_settings = Except.ok () →
      s.write_snappy_dict = Except.error e →
      s.generate_mesh =
        ([MeshStep.extractFeatures, MeshStep.writeSettings,
          MeshStep.writeSnappyDict], some e)) ∧
    (∀ e, s.geom.extract_features = Except.ok () →
      s.geom.write_settings = Except.ok () →
      s.write_snappy_dict = Except.ok () →
      s.case_.run_tool "snappyHexMesh" = Except.error e →
      s.generate_mesh = (meshSteps, some e)) ∧
    (∃ n, (s.generate_mesh).1 = meshSteps.take n ∧ 1 ≤ n) := by
  refine ⟨?_, ?_, ?_, ?_, ?_, ?_⟩
  · intro h1 h2 h3 h4
    simp [SnappyHexMesh.generate_mesh, h1, h2, h3, h4]
  · intro e h1
    simp [SnappyHexMesh.generate_mesh, h1]
  · intro e h1 h2
    simp [SnappyHexMesh.generate_mesh, h1, h2]
  · intro e h1 h2 h3
    simp [SnappyHexMesh.generate_mesh, h1, h2, h3]
  · intro e h1 h2 h3 h4
    simp [SnappyHexMesh.generate_mesh, h1, h2, h3, h4]
  · rcases h1 : s.geom.extract_features with e | u
    · exact ⟨1, by simp [SnappyHexMesh.generate_mesh, h1, meshSteps], le_refl 1⟩
    · rcases h2 : s.geom.write_settings with e | u
      · exact ⟨2, by simp [SnappyHexMesh.generate_mesh, h1, h2, meshSteps],
          by norm_num⟩
      · rcases h3 : s.write_snappy_dict with e | u
        · exact ⟨3, by simp [SnappyHexMesh.generate_mesh, h1, h2, h3, meshSteps],
            by norm_num⟩
        · rcases h4 : s.case_.run_tool "snappyHexMesh" with e | u
          · exact ⟨4,
              by simp [SnappyHexMesh.generate_mesh, h1, h2, h3, h4, meshSteps],
              by norm_num⟩
          · exact ⟨4,
              by simp [SnappyHexMesh.generate_mesh, h1, h2, h3, h4, meshSteps],
              by norm_num⟩

/-- A geometry whose quality-settings write fails with an external error. -/
def failGeom : Geometry :=
  { filename := "sphere.stl", name := "sphere",
    extract_features := Except.ok (),
    write_settings := Except.error (PyErr.external 7) }

/-- The settings object built on the failing geometry. -/
def failSHM : SnappyHexMesh := SnappyHexMesh.init failGeom 4 okCase

/-- Witness for C2: with all collaborators succeeding the four steps run in
order; with a failing quality-settings write the error propagates
unchanged and only the first two steps start. -/
theorem claimC2_orchestration_witness :
    defaultSHM.generate_mesh = (meshSteps, none) ∧
    failSHM.generate_mesh =
      ([MeshStep.extractFeatures, MeshStep.writeSettings],
       some (PyErr.external 7)) :=
  ⟨(claimC2_orchestration defaultSHM).1 rfl rfl rfl rfl,
   (claimC2_orchestration failSHM).2.2.1 (PyErr.external 7) rfl rfl⟩

end Firefish
